import Mathlib

set_option maxRecDepth 4000

/-!
Shallow embedding of the Reddit user-persona generator
(`persona_spez.py`, with `reddit_persona.py` as the dashboard variant).

Python strings are modelled as Lean `String`s (manipulated through their
character lists), Python floats produced by the single division
`total_words / len(texts)` are modelled exactly as rationals, Python lists
and dicts as Lean lists (dicts as association lists in insertion order,
matching Python dict semantics), and the fallible network fetch as an
`Except String` value fed to `generate_persona`.
-/

/-! ## Text normalizer (`_clean_text`, persona_spez.py lines 28-30)

`re.sub(r'[^\w\s]', '', text.lower())`: lowercase, then delete every
character that is neither a word character (alphanumeric or underscore)
nor whitespace.  ASCII reading of `\w`, `\s` and `str.lower`. -/

def keepChar (c : Char) : Bool :=
  c.isAlphanum || c == '_' || c.isWhitespace

def clean_text (s : String) : String :=
  ⟨(s.data.map Char.toLower).filter keepChar⟩

/-! ## Word counting (`len(t.split())`)

Python `str.split()` with no argument splits on whitespace runs and drops
empty pieces; only the number of pieces is ever used. -/

def countWordsAux : List Char → Bool → Nat
  | [], _ => 0
  | c :: cs, inWord =>
    if c.isWhitespace then countWordsAux cs false
    else (if inWord then 0 else 1) + countWordsAux cs true

def wordCount (s : String) : Nat :=
  countWordsAux s.data false

/-! ## Substring occurrence (Python `needle in hay`) -/

def leadMatch : List Char → List Char → Bool
  | [], _ => true
  | _ :: _, [] => false
  | a :: as, b :: bs => a == b && leadMatch as bs

def occursIn (needle : List Char) : List Char → Bool
  | [] => leadMatch needle []
  | c :: t => leadMatch needle (c :: t) || occursIn needle t

def strContains (needle hay : String) : Bool :=
  occursIn needle.data hay.data

/-! ## Style analyzer (`analyze_writing_style`, persona_spez.py lines 32-68)

The empty-input branch returns a dict without the question/exclamation
keys and with a `Readability` key; the metric branch is the reverse.
`Option` fields model key presence. -/

structure StyleProfile where
  description : String
  averageWordCount : Rat
  emojiUsage : Nat
  formalityScore : Nat
  questionFrequency : Option Nat
  exclamationFrequency : Option Nat
  readability : Option String
deriving DecidableEq

def emojiStrings : List String := ["😂", "😊", "❤️"]

def formalWords : List String := ["however", "therefore", "moreover"]

def avgWordCountOf (texts : List String) : Rat :=
  ((texts.map wordCount).sum : Rat) / (texts.length : Rat)

def emojiUsageOf (texts : List String) : Nat :=
  (texts.filter (fun t => emojiStrings.any (fun e => strContains e t))).length

def formalityScoreOf (texts : List String) : Nat :=
  (texts.filter (fun t => formalWords.any (fun w => strContains w (clean_text t)))).length

def questionFreqOf (texts : List String) : Nat :=
  (texts.filter (fun t => strContains "?" t)).length

def exclamationFreqOf (texts : List String) : Nat :=
  (texts.filter (fun t => strContains "!" t)).length

def analyze_writing_style (texts : List String) : StyleProfile :=
  if texts = [] then
    { description := "No text available"
      averageWordCount := 0
      emojiUsage := 0
      formalityScore := 0
      questionFrequency := none
      exclamationFrequency := none
      readability := some "N/A" }
  else
    { description :=
        if avgWordCountOf texts > 75 then "Detailed and analytical"
        else if avgWordCountOf texts > 40 then "Balanced and thoughtful"
        else if emojiUsageOf texts > 3 then "Casual and expressive"
        else if formalityScoreOf texts > 5 then "Formal and structured"
        else "Straightforward and concise"
      averageWordCount := avgWordCountOf texts
      emojiUsage := emojiUsageOf texts
      formalityScore := formalityScoreOf texts
      questionFrequency := some (questionFreqOf texts)
      exclamationFrequency := some (exclamationFreqOf texts)
      readability := none }

/-! ## Interest classifier (`detect_interests`, persona_spez.py lines 70-87) -/

def interest_keywords : List (String × List String) :=
  [("Technology", ["python", "programming", "javascript", "linux", "github"]),
   ("Gaming", ["game", "gaming", "playstation", "xbox", "nintendo"]),
   ("Sports", ["football", "basketball", "soccer", "nba", "nfl"]),
   ("Movies/TV", ["movie", "netflix", "marvel", "star wars", "tv show"]),
   ("Science", ["space", "physics", "biology", "research", "astronomy"])]

def detect_interests (text : String) : List String :=
  let t := clean_text text
  (interest_keywords.filter (fun p => p.2.any (fun kw => strContains kw t))).map Prod.fst

/-! ## Trait classifier (`detect_personality_traits`, persona_spez.py lines 89-103) -/

def opinionWords : List String := ["i think", "in my opinion", "i believe"]

def humorWords : List String := ["lol", "haha", "funny", "joke"]

def helpWords : List String := ["help", "advice", "suggestion"]

def curiousWords : List String := ["why", "how", "explain"]

def detect_personality_traits (text : String) : List String :=
  let t := clean_text text
  (if opinionWords.any (fun w => strContains w t) then ["Opinionated"] else []) ++
  (if humorWords.any (fun w => strContains w t) then ["Humorous"] else []) ++
  (if helpWords.any (fun w => strContains w t) then ["Helpful"] else []) ++
  (if curiousWords.any (fun w => strContains w t) then ["Curious"] else [])

/-! ## Fetched data and persona assembly (`generate_persona`, lines 105-154)

The external collaborator (praw) is modelled as an `Except String UserData`
argument: `Except.error msg` stands for any exception raised while
contacting it, `Except.ok` for a completed fetch of the bounded listings
plus account metadata. -/

structure RComment where
  body : String
  created_utc : Int
  subreddit : String
  permalink : String
deriving DecidableEq

structure RPost where
  title : String
  created_utc : Int
  subreddit : String
  permalink : String
deriving DecidableEq

structure UserData where
  created_utc : Int
  comment_karma : Int
  link_karma : Int
  comments : List RComment
  posts : List RPost
deriving DecidableEq

/-- `min(datetime.fromtimestamp(c.created_utc) for c in comments) if comments
else "N/A"`: either an actual timestamp or the literal string `"N/A"`. -/
inductive FirstSeen where
  | ts (t : Int)
  | na
deriving DecidableEq

def firstSeenOf : List RComment → FirstSeen
  | [] => .na
  | c :: cs => .ts (cs.foldl (fun m x => min m x.created_utc) c.created_utc)

/-- `defaultdict(int)` tally update: `d[k] += 1` in insertion order. -/
def tallyAdd (m : List (String × Nat)) (k : String) : List (String × Nat) :=
  if m.any (fun p => p.1 == k) then
    m.map (fun p => if p.1 == k then (p.1, p.2 + 1) else p)
  else m ++ [(k, 1)]

/-- `defaultdict(list)` update: `d[k].append(v)` in insertion order. -/
def citeAdd (m : List (String × List String)) (k v : String) : List (String × List String) :=
  if m.any (fun p => p.1 == k) then
    m.map (fun p => if p.1 == k then (p.1, p.2 ++ [v]) else p)
  else m ++ [(k, [v])]

structure ActivitySummary where
  totalComments : Nat
  totalPosts : Nat
  commentKarma : Int
  postKarma : Int
  firstSeen : FirstSeen
deriving DecidableEq

structure Persona where
  username : String
  accountCreated : Int
  writingStyle : StyleProfile
  preferredSubreddits : List (String × Nat)
  interests : List (String × List String)
  traits : List (String × List String)
  activity : ActivitySummary
  citedComments : List String
  citedPosts : List String
deriving DecidableEq

def buildPersona (username : String) (u : UserData) : Persona :=
  let all_texts := u.comments.map (fun c => c.body) ++ u.posts.map (fun p => p.title)
  let acc := u.comments.foldl
    (fun acc c =>
      (tallyAdd acc.1 c.subreddit,
       (detect_interests c.body).foldl (fun m i => citeAdd m i c.permalink) acc.2.1,
       (detect_personality_traits c.body).foldl (fun m t => citeAdd m t c.permalink) acc.2.2))
    (([], [], []) :
      List (String × Nat) × List (String × List String) × List (String × List String))
  { username := "u/" ++ username
    accountCreated := u.created_utc
    writingStyle := analyze_writing_style all_texts
    preferredSubreddits := acc.1
    interests := acc.2.1
    traits := acc.2.2
    activity :=
      { totalComments := u.comments.length
        totalPosts := u.posts.length
        commentKarma := u.comment_karma
        postKarma := u.link_karma
        firstSeen := firstSeenOf u.comments }
    citedComments := (u.comments.take 3).map (fun c => c.permalink)
    citedPosts := (u.posts.take 3).map (fun p => p.permalink) }

inductive PersonaResult where
  | error (msg : String)
  | ok (p : Persona)
deriving DecidableEq

def generate_persona (username : String) (fetch : Except String UserData) : PersonaResult :=
  match fetch with
  | .error e => .error e
  | .ok u =>
    if u.comments = [] ∧ u.posts = [] then .error "No public activity found"
    else .ok (buildPersona username u)

/-! ## Community ranking (`format_output`, persona_spez.py lines 175-179)

`sorted(persona["Preferred Subreddits"].items(), key=lambda x: x[1],
reverse=True)[:5]`: a stable sort descending by count, then the first
five entries.  Python's stable sort is modelled by `List.insertionSort`,
which is also stable. -/

def subCountGE (a b : String × Nat) : Prop := b.2 ≤ a.2

instance : DecidableRel subCountGE := fun a b => Nat.decLe b.2 a.2

instance : IsTotal (String × Nat) subCountGE := ⟨fun a b => Nat.le_total b.2 a.2⟩

instance : IsTrans (String × Nat) subCountGE := ⟨fun _ _ _ h1 h2 => Nat.le_trans h2 h1⟩

def sortCountDesc (l : List (String × Nat)) : List (String × Nat) :=
  List.insertionSort subCountGE l

def topSubreddits (p : Persona) : List (String × Nat) :=
  (sortCountDesc p.preferredSubreddits).take 5

/-! ## Concrete test fixtures -/

/-- An 80-word text (79 times `a`, then one emoji word). -/
def exLong : String :=
  ⟨(List.replicate 79 'a').foldr (fun c acc => c :: ' ' :: acc) ['😂']⟩

/-- End-to-end scenario B: two comments, zero posts. -/
def exUserB : UserData :=
  { created_utc := 1000
    comment_karma := 5
    link_karma := 7
    comments :=
      [⟨"I think Python is great, however it\x27s slow", 1100, "test", "pl1"⟩,
       ⟨"lol that\x27s hilarious", 1200, "test", "pl2"⟩]
    posts := [] }

/-- End-to-end scenario C: three comments in `test`, one in `other`. -/
def exUserC : UserData :=
  { created_utc := 0
    comment_karma := 0
    link_karma := 0
    comments :=
      [⟨"", 1, "test", "q1"⟩, ⟨"", 2, "test", "q2"⟩,
       ⟨"", 3, "test", "q3"⟩, ⟨"", 4, "other", "q4"⟩]
    posts := [] }

/-! ## Helper lemmas -/

theorem char_isUpper_iff (c : Char) : c.isUpper = true ↔ (65 ≤ c.toNat ∧ c.toNat ≤ 90) := by
  simp [Char.isUpper]
  exact Iff.rfl

theorem toLower_notUpper (c : Char) : (Char.toLower c).isUpper = false := by
  by_cases h : 65 ≤ c.toNat ∧ c.toNat ≤ 90
  · simp only [Char.toLower, h, and_self, if_true]
    obtain ⟨h1, h2⟩ := h
    generalize hn : Char.toNat c = n at h1 h2
    interval_cases n <;> decide
  · simp only [Char.toLower, h, if_false]
    rw [Bool.eq_false_iff]
    intro hu
    exact h ((char_isUpper_iff c).mp hu)

theorem toLower_eq_of_notUpper (c : Char) (h : c.isUpper = false) : Char.toLower c = c := by
  have hn : ¬ (65 ≤ c.toNat ∧ c.toNat ≤ 90) := by
    intro hc
    rw [← char_isUpper_iff] at hc
    simp [h] at hc
  simp only [Char.toLower, hn, if_false]

theorem toLower_toLower (c : Char) : Char.toLower (Char.toLower c) = Char.toLower c :=
  toLower_eq_of_notUpper _ (toLower_notUpper c)

theorem mem_clean_text {s : String} {c : Char} (hc : c ∈ (clean_text s).data) :
    keepChar c = true ∧ c.isUpper = false ∧ Char.toLower c = c := by
  have hdata : (clean_text s).data = (s.data.map Char.toLower).filter keepChar := rfl
  rw [hdata] at hc
  have hk := List.of_mem_filter hc
  have hm := List.mem_of_mem_filter hc
  obtain ⟨x, _, rfl⟩ := List.mem_map.mp hm
  exact ⟨hk, toLower_notUpper x, toLower_toLower x⟩

theorem styleDescription_eq (texts : List String) (h : texts ≠ []) :
    (analyze_writing_style texts).description =
      if avgWordCountOf texts > 75 then "Detailed and analytical"
      else if avgWordCountOf texts > 40 then "Balanced and thoughtful"
      else if emojiUsageOf texts > 3 then "Casual and expressive"
      else if formalityScoreOf texts > 5 then "Formal and structured"
      else "Straightforward and concise" := by
  unfold analyze_writing_style
  rw [if_neg h]

theorem avgWordCountOf_eq (texts : List String) (s n : Nat)
    (h1 : (texts.map wordCount).sum = s) (h2 : texts.length = n) :
    avgWordCountOf texts = (s : Rat) / (n : Rat) := by
  unfold avgWordCountOf
  rw [h1, h2]

theorem exUserB_style :
    (buildPersona "alice" exUserB).writingStyle =
      analyze_writing_style
        ["I think Python is great, however it\x27s slow", "lol that\x27s hilarious"] := rfl

theorem exUserB_avg :
    avgWordCountOf
        ["I think Python is great, however it\x27s slow", "lol that\x27s hilarious"]
      = 11 / 2 := by
  rw [avgWordCountOf_eq _ 11 2 (by decide) (by decide)]
  norm_num

/-! ## Claim theorems -/

/-- C1: for every non-empty batch of texts the style analyzer assigns exactly one
description label by the ordered threshold ladder, first match winning:
average word count > 75 gives "Detailed and analytical", else average word
count > 40 gives "Balanced and thoughtful", else emoji usage > 3 gives
"Casual and expressive", else formality score > 5 gives
"Formal and structured", else "Straightforward and concise". -/
theorem style_threshold_ladder (texts : List String) (h : texts ≠ []) :
    (analyze_writing_style texts).description =
      if avgWordCountOf texts > 75 then "Detailed and analytical"
      else if avgWordCountOf texts > 40 then "Balanced and thoughtful"
      else if emojiUsageOf texts > 3 then "Casual and expressive"
      else if formalityScoreOf texts > 5 then "Formal and structured"
      else "Straightforward and concise" :=
  styleDescription_eq texts h

/-- Witness for C1: a batch of five 80-word texts, each containing an emoji,
has average word count 80 and emoji usage 5 and is classified
"Detailed and analytical" (the first rule wins over the emoji rule). -/
theorem style_threshold_ladder_witness :
    (List.replicate 5 exLong ≠ []) ∧
    avgWordCountOf (List.replicate 5 exLong) = 80 ∧
    emojiUsageOf (List.replicate 5 exLong) = 5 ∧
    (analyze_writing_style (List.replicate 5 exLong)).description = "Detailed and analytical" := by
  have hne : List.replicate 5 exLong ≠ [] := by decide
  have havg : avgWordCountOf (List.replicate 5 exLong) = 80 := by
    rw [avgWordCountOf_eq _ 400 5 (by decide) (by decide)]
    norm_num
  refine ⟨hne, havg, by decide, ?_⟩
  rw [style_threshold_ladder _ hne, havg]
  norm_num

/-- C2: whenever both fetched listings are empty, `generate_persona` returns
the error sentinel `{"error": "No public activity found"}`, regardless of the
account metadata carried by the fetch. -/
theorem no_activity_sentinel (name : String) (u : UserData)
    (hc : u.comments = []) (hp : u.posts = []) :
    generate_persona name (Except.ok u) = PersonaResult.error "No public activity found" := by
  simp only [generate_persona]
  rw [if_pos ⟨hc, hp⟩]

/-- Witness for C2: a user with no comments and no posts but nonzero karma
counters and a creation timestamp still maps to the sentinel. -/
theorem no_activity_sentinel_witness :
    generate_persona "ghost" (Except.ok ⟨42, 7, 9, [], []⟩)
      = PersonaResult.error "No public activity found" :=
  no_activity_sentinel "ghost" ⟨42, 7, 9, [], []⟩ rfl rfl

/-- C4 counterexample: the normalizer does not remove the underscore, which is
neither alphanumeric nor whitespace, so "a lowercase copy with all characters
that are neither alphanumeric nor whitespace removed" fails on input "_". -/
theorem clean_text_keeps_underscore :
    clean_text "_" = "_" ∧ '_'.isAlphanum = false ∧ '_'.isWhitespace = false := by
  refine ⟨by decide, by decide, by decide⟩

/-- C4 amended: the normalizer returns a lowercase copy with all characters
that are neither word characters (alphanumeric or underscore) nor whitespace
removed; the output contains no uppercase letters, and the empty string maps
to the empty string. -/
theorem clean_text_word_chars (s : String) :
    ((clean_text s).data.all
        fun c => (c.isAlphanum || c == '_' || c.isWhitespace) && !c.isUpper) = true
    ∧ clean_text "" = "" := by
  constructor
  · rw [List.all_eq_true]
    intro c hc
    obtain ⟨hk, hu, _⟩ := mem_clean_text hc
    rw [Bool.and_eq_true]
    constructor
    · simpa [keepChar] using hk
    · simp [hu]
  · rfl

/-- C5: the normalizer is idempotent: normalizing twice equals normalizing
once, for every input string. -/
theorem clean_text_idempotent (s : String) : clean_text (clean_text s) = clean_text s := by
  have h1 : (clean_text s).data.map Char.toLower = (clean_text s).data := by
    have h := List.map_congr_left (l := (clean_text s).data) (f := Char.toLower) (g := id)
      (fun c hc => (mem_clean_text hc).2.2)
    rw [h, List.map_id]
  have h2 : (clean_text s).data.filter keepChar = (clean_text s).data :=
    List.filter_eq_self.mpr fun c hc => (mem_clean_text hc).1
  show (⟨((clean_text s).data.map Char.toLower).filter keepChar⟩ : String) = clean_text s
  rw [h1, h2]

/-- C6: the style analyzer on the empty batch returns the sentinel result:
description "No text available", zero numeric metrics, `Readability` set to
"N/A", and no question/exclamation metrics computed (the metric branch is
never entered). -/
theorem style_empty_sentinel :
    analyze_writing_style [] =
      { description := "No text available"
        averageWordCount := 0
        emojiUsage := 0
        formalityScore := 0
        questionFrequency := none
        exclamationFrequency := none
        readability := some "N/A" } := rfl

/-- C8: a failure of the external collaborator (modelled as `Except.error`)
is converted into the same error-sentinel shape as the no-activity case,
carrying the underlying message, and the result carries no report fields. -/
theorem fetch_failure_sentinel (name msg : String) :
    generate_persona name (Except.error msg) = PersonaResult.error msg
    ∧ ∀ p : Persona, generate_persona name (Except.error msg) ≠ PersonaResult.ok p :=
  ⟨rfl, fun _ h => PersonaResult.noConfusion h⟩

/-- C10: with at least one submission and zero comments, `generate_persona`
succeeds (no error sentinel) and the activity summary records the first-seen
field as the literal "N/A" marker rather than a timestamp. -/
theorem posts_only_first_seen (name : String) (u : UserData)
    (hc : u.comments = []) (hp : u.posts ≠ []) :
    generate_persona name (Except.ok u) = PersonaResult.ok (buildPersona name u)
    ∧ (buildPersona name u).activity.firstSeen = FirstSeen.na := by
  constructor
  · simp only [generate_persona]
    rw [if_neg fun h => hp h.2]
  · show firstSeenOf u.comments = FirstSeen.na
    rw [hc]
    rfl

/-- Witness for C10: one post, zero comments gives a successful report whose
first-seen field is the "N/A" marker. -/
theorem posts_only_first_seen_witness :
    generate_persona "sub" (Except.ok ⟨5, 1, 2, [], [⟨"hello", 50, "test", "pp"⟩]⟩)
      = PersonaResult.ok (buildPersona "sub" ⟨5, 1, 2, [], [⟨"hello", 50, "test", "pp"⟩]⟩)
    ∧ (buildPersona "sub" ⟨5, 1, 2, [], [⟨"hello", 50, "test", "pp"⟩]⟩).activity.firstSeen
      = FirstSeen.na :=
  posts_only_first_seen "sub" ⟨5, 1, 2, [], [⟨"hello", 50, "test", "pp"⟩]⟩ rfl (by decide)

theorem analyze_avg_eq (texts : List String) (h : texts ≠ []) :
    (analyze_writing_style texts).averageWordCount = avgWordCountOf texts := by
  unfold analyze_writing_style
  rw [if_neg h]

theorem mem_if_singleton (c : Prop) [Decidable c] (a b : String) :
    a ∈ (if c then [b] else ([] : List String)) ↔ c ∧ a = b := by
  by_cases h : c <;> simp [h]

/-- C3 counterexample: on the scenario-B user (two comments, zero posts) the
generated persona has average word count 11/2 = 5.5, not 6.0 (the second
comment has 3 whitespace-delimited words, not 4), and its trait set is not
{Opinionated, Humorous} (the keyword "how" also matches inside "however",
adding Curious). -/
theorem scenario_b_counterexample :
    generate_persona "alice" (Except.ok exUserB) = PersonaResult.ok (buildPersona "alice" exUserB)
    ∧ (buildPersona "alice" exUserB).writingStyle.averageWordCount ≠ 6
    ∧ (buildPersona "alice" exUserB).traits.map Prod.fst ≠ ["Opinionated", "Humorous"] := by
  refine ⟨?_, ?_, by decide⟩
  · simp only [generate_persona]
    rw [if_neg (by decide : ¬(exUserB.comments = [] ∧ exUserB.posts = []))]
  · rw [exUserB_style, analyze_avg_eq _ (by decide), exUserB_avg]
    norm_num

/-- C3 amended: for the scenario-B user (comments "I think Python is great,
however it\x27s slow" and "lol that\x27s hilarious", zero posts) the persona has
interests = {Technology}, traits = {Opinionated, Curious, Humorous}, word
counts 8 and 3, average word count (8+3)/2 = 5.5, and style description
"Straightforward and concise". -/
theorem scenario_b_amended :
    generate_persona "alice" (Except.ok exUserB) = PersonaResult.ok (buildPersona "alice" exUserB)
    ∧ (buildPersona "alice" exUserB).interests.map Prod.fst = ["Technology"]
    ∧ (buildPersona "alice" exUserB).traits.map Prod.fst = ["Opinionated", "Curious", "Humorous"]
    ∧ wordCount "I think Python is great, however it\x27s slow" = 8
    ∧ wordCount "lol that\x27s hilarious" = 3
    ∧ (buildPersona "alice" exUserB).writingStyle.averageWordCount = 11 / 2
    ∧ (buildPersona "alice" exUserB).writingStyle.description = "Straightforward and concise" := by
  refine ⟨?_, by decide, by decide, by decide, by decide, ?_, ?_⟩
  · simp only [generate_persona]
    rw [if_neg (by decide : ¬(exUserB.comments = [] ∧ exUserB.posts = []))]
  · rw [exUserB_style, analyze_avg_eq _ (by decide), exUserB_avg]
  · rw [exUserB_style, styleDescription_eq _ (by decide), exUserB_avg,
        show emojiUsageOf
            ["I think Python is great, however it\x27s slow", "lol that\x27s hilarious"] = 0
          from by decide,
        show formalityScoreOf
            ["I think Python is great, however it\x27s slow", "lol that\x27s hilarious"] = 1
          from by decide]
    norm_num

/-- C7: both classifiers are pure keyword-set membership tests over the
normalized text: a label is in the result exactly when one of its keywords
occurs as a substring of the normalized text; no label is duplicated; a text
matching no keyword yields the empty label set and a text matching keywords
of two categories yields both labels. -/
theorem keyword_classifiers (text : String) :
    (∀ label : String, label ∈ detect_interests text ↔
        ∃ p ∈ interest_keywords, p.1 = label ∧ ∃ kw ∈ p.2, strContains kw (clean_text text) = true)
    ∧ (detect_interests text).Nodup
    ∧ ("Opinionated" ∈ detect_personality_traits text ↔
        ∃ w ∈ opinionWords, strContains w (clean_text text) = true)
    ∧ ("Humorous" ∈ detect_personality_traits text ↔
        ∃ w ∈ humorWords, strContains w (clean_text text) = true)
    ∧ ("Helpful" ∈ detect_personality_traits text ↔
        ∃ w ∈ helpWords, strContains w (clean_text text) = true)
    ∧ ("Curious" ∈ detect_personality_traits text ↔
        ∃ w ∈ curiousWords, strContains w (clean_text text) = true)
    ∧ (detect_personality_traits text).Nodup
    ∧ detect_interests "zzzz" = []
    ∧ detect_personality_traits "zzzz" = []
    ∧ detect_interests "python and football" = ["Technology", "Sports"] := by
  refine ⟨?_, ?_, ?_, ?_, ?_, ?_, ?_, by decide, by decide, by decide⟩
  · intro label
    simp only [detect_interests, List.mem_map, List.mem_filter, List.any_eq_true]
    tauto
  · have hsub : ((interest_keywords.filter
        (fun p => p.2.any (fun kw => strContains kw (clean_text text)))).map Prod.fst).Sublist
        (interest_keywords.map Prod.fst) :=
      (List.filter_sublist _).map _
    exact List.Nodup.sublist hsub (by decide)
  · simp only [detect_personality_traits, List.mem_append, mem_if_singleton, List.any_eq_true]
    simp
  · simp only [detect_personality_traits, List.mem_append, mem_if_singleton, List.any_eq_true]
    simp
  · simp only [detect_personality_traits, List.mem_append, mem_if_singleton, List.any_eq_true]
    simp
  · simp only [detect_personality_traits, List.mem_append, mem_if_singleton, List.any_eq_true]
    simp
  · by_cases h1 : (opinionWords.any fun w => strContains w (clean_text text)) = true <;>
    by_cases h2 : (humorWords.any fun w => strContains w (clean_text text)) = true <;>
    by_cases h3 : (helpWords.any fun w => strContains w (clean_text text)) = true <;>
    by_cases h4 : (curiousWords.any fun w => strContains w (clean_text text)) = true <;>
      simp [detect_personality_traits, h1, h2, h3, h4]

/-- C9: the community-activity ranking shown in the report lists communities
in descending order of interaction count; for a tally of 3 comments in
r/test and 1 in r/other the top community list is [("test",3), ("other",1)]. -/
theorem community_ranking_desc :
    (∀ p : Persona, (topSubreddits p).Pairwise subCountGE)
    ∧ generate_persona "bob" (Except.ok exUserC) = PersonaResult.ok (buildPersona "bob" exUserC)
    ∧ topSubreddits (buildPersona "bob" exUserC) = [("test", 3), ("other", 1)] := by
  refine ⟨fun p => ?_, ?_, by decide⟩
  · simp only [topSubreddits, sortCountDesc]
    exact List.Pairwise.sublist (List.take_sublist 5 _)
      (List.sorted_insertionSort subCountGE p.preferredSubreddits)
  · simp only [generate_persona]
    rw [if_neg (by decide : ¬(exUserC.comments = [] ∧ exUserC.posts = []))]
